import Mathlib

/-!
Shallow embedding of the Plonky3 example repository (fib_example, fib2, fib-wasm and
the p3-examples CLI driver) and proofs about its trace generation, AIR constraints,
configuration gating and prove/verify wiring.

Field elements of a prime field with modulus p are modelled as ZMod p; the u64 to
field conversion from_u64 reduces modulo p, and the u32 constructor applied to a
u64 first truncates modulo 2^32 (the Rust cast a as u32).
-/

/-- Rust u64/usize is_power_of_two: nonzero and no bit shared with n - 1. -/
def isPowerOfTwoRust (n : ℕ) : Bool := n != 0 && (n &&& (n - 1)) == 0

/-- Fuel-driven loop computing the smallest power of two that is at least n,
mirroring Rust usize::next_power_of_two as used by fib2 parse_trace. -/
def next_power_of_two_go (n : ℕ) : ℕ → ℕ → ℕ
  | 0, power => power
  | fuel + 1, power => if n ≤ power then power else next_power_of_two_go n fuel (power * 2)

/-- Rust usize::next_power_of_two (0 and 1 both map to 1). -/
def next_power_of_two (n : ℕ) : ℕ := next_power_of_two_go n n 1

/-- The BabyBear prime 2^31 - 2^27 + 1, base field of the fib_example crate. -/
def babyBearP : ℕ := 2013265921

/-- The Goldilocks prime 2^64 - 2^32 + 1, base field of the fib2 crate. -/
def goldilocksP : ℕ := 18446744069414584321

/-- The Rust cast x as u32 applied to a u64 value, used by prover.rs when turning
the u64 workflow inputs into BabyBear public values via BabyBear::new(x as u32). -/
def u64_as_u32 (x : ℕ) : ℕ := x % 2 ^ 32

/-- The body of the trace generation loop in generate_fibonacci_trace
(fib_example/src/trace.rs): rows[i].left = rows[i-1].right and
rows[i].right = rows[i-1].left + rows[i-1].right. -/
def fibNextRow {p : ℕ} (r : ZMod p × ZMod p) : ZMod p × ZMod p := (r.2, r.1 + r.2)

/-- The list of rows written by generate_fibonacci_trace starting from row r:
row 0 is r and each later row is fibNextRow of its predecessor. -/
def fibRowsFrom {p : ℕ} (r : ZMod p × ZMod p) : ℕ → List (ZMod p × ZMod p)
  | 0 => []
  | n + 1 => r :: fibRowsFrom (fibNextRow r) n

/-- generate_fibonacci_trace from fib_example/src/trace.rs (the identical loop also
appears as generate_trace_rows in fib-wasm/src/lib.rs). The two asserts (num_steps
is a power of two, num_steps > 0) are modelled as returning none; row 0 is
(F::from_u64 a, F::from_u64 b), i.e. (a, b) reduced mod p. Each row is a pair, so
the returned matrix is num_steps by 2 in row-major order. -/
def generate_fibonacci_trace (p : ℕ) (a b : ℕ) (num_steps : ℕ) :
    Option (List (ZMod p × ZMod p)) :=
  if isPowerOfTwoRust num_steps = true ∧ 0 < num_steps then
    some (fibRowsFrom ((a : ZMod p), (b : ZMod p)) num_steps)
  else none

/-- First-row boundary constraints of FibonacciAir::eval (fib_example/src/air.rs):
when_first_row asserts current.left = public_values[0] and
current.right = public_values[1]. -/
def fibFirstRowOk {p : ℕ} (rows : List (ZMod p × ZMod p))
    (pv : ZMod p × ZMod p × ZMod p) : Bool :=
  match rows.head? with
  | some r => r.1 == pv.1 && r.2 == pv.2.1
  | none => true

/-- Last-row boundary constraint of FibonacciAir::eval: when_last_row asserts
current.right = public_values[2]. -/
def fibLastRowOk {p : ℕ} (rows : List (ZMod p × ZMod p))
    (pv : ZMod p × ZMod p × ZMod p) : Bool :=
  match rows.getLast? with
  | some r => r.2 == pv.2.2
  | none => true

/-- Transition constraints of FibonacciAir::eval, applied to every consecutive row
pair: next.left = current.right and next.right = current.left + current.right. -/
def fibTransitionsOk {p : ℕ} : List (ZMod p × ZMod p) → Bool
  | [] => true
  | [_] => true
  | r1 :: r2 :: rest =>
      (r2.1 == r1.2 && r2.2 == r1.1 + r1.2) && fibTransitionsOk (r2 :: rest)

/-- All constraints imposed by FibonacciAir::eval on a trace with the given public
values (initial left, initial right, final result). -/
def fibAirSatisfied {p : ℕ} (rows : List (ZMod p × ZMod p))
    (pv : ZMod p × ZMod p × ZMod p) : Bool :=
  fibFirstRowOk rows pv && fibLastRowOk rows pv && fibTransitionsOk rows

/-- Modelled from the spec: the error taxonomy of spec section 7 (ConfigurationError,
TraceShapeError, ConstraintViolation, VerificationError, SerializationError); the
concrete error types live in p3_uni_stark and the CLI glue, which are repository
code not under src/. -/
inductive SpecError where
  | ConfigurationError : SpecError
  | TraceShapeError : SpecError
  | ConstraintViolation : SpecError
  | VerificationError : SpecError
  | SerializationError : SpecError
deriving DecidableEq

/-- Modelled from the spec: the p3_uni_stark prove and verify pair (repository code
not under src/). Per spec section 8, verify after prove returns Ok exactly when the
trace satisfies the AIR constraints, and a violating trace makes verify reject with
a VerificationError (scenario 2 of the spec names VerificationError for this case;
no false positives). -/
def proveThenVerify (constraintsSatisfied : Bool) : Except SpecError Unit :=
  if constraintsSatisfied then Except.ok () else Except.error SpecError.VerificationError

/-- prove_and_verify_fibonacci from fib_example/src/prover.rs: generate the BabyBear
trace from (start_a, start_b), build the public values
[BabyBear::new(start_a as u32), BabyBear::new(start_b as u32),
BabyBear::new(expected_result as u32)], prove, then verify the proof against the
same configuration, AIR and public values via the spec-modelled pipeline. The
panic of the trace generator on a bad height is modelled as TraceShapeError. -/
def prove_and_verify_fibonacci (start_a start_b : ℕ) (num_steps : ℕ)
    (expected_result : ℕ) : Except SpecError Unit :=
  match generate_fibonacci_trace babyBearP start_a start_b num_steps with
  | none => Except.error SpecError.TraceShapeError
  | some rows =>
      proveThenVerify (fibAirSatisfied rows
        (((u64_as_u32 start_a : ℕ) : ZMod babyBearP),
         ((u64_as_u32 start_b : ℕ) : ZMod babyBearP),
         ((u64_as_u32 expected_result : ℕ) : ZMod babyBearP)))

/-- The AIR dispatcher enum ProofObjective from examples/src/airs.rs, with the
Blake3, Keccak and vectorized Poseidon2 variants (the AIR payloads are external). -/
inductive ProofObjective where
  | Blake3 : ProofObjective
  | Keccak : ProofObjective
  | Poseidon2 : ProofObjective
deriving DecidableEq

/-- Modelled from the spec: the hash AIR trace generators (generate_trace_rows of
the Blake3, Keccak and vectorized Poseidon2 AIRs, repository code not under src/)
produce, for any requested number of hashes, a trace that satisfies the
corresponding AIR constraints, padding rows included (spec sections 4.1 and 8). -/
def hashTraceSatisfiesAir (goal : ProofObjective) (num_hashes : ℕ) : Bool := true

/-- prove_monty31_keccak from examples/src/proofs.rs: build the Keccak MMCS and FRI
parameters, generate the trace for num_hashes, prove, and verify the produced proof
with the same configuration, AIR and (empty) public values. The prove/verify pair
is the spec-modelled pipeline. -/
def prove_monty31_keccak (goal : ProofObjective) (num_hashes : ℕ) :
    Except SpecError Unit :=
  proveThenVerify (hashTraceSatisfiesAir goal num_hashes)

/-- prove_monty31_poseidon2 from examples/src/proofs.rs: as prove_monty31_keccak but
with the Poseidon2 MMCS and duplex challenger. -/
def prove_monty31_poseidon2 (goal : ProofObjective) (num_hashes : ℕ) :
    Except SpecError Unit :=
  proveThenVerify (hashTraceSatisfiesAir goal num_hashes)

/-- prove_m31_keccak from examples/src/proofs.rs: Mersenne31 with the Circle PCS and
Keccak MMCS; trace generation, prove and verify as in the other entry points. -/
def prove_m31_keccak (goal : ProofObjective) (num_hashes : ℕ) :
    Except SpecError Unit :=
  proveThenVerify (hashTraceSatisfiesAir goal num_hashes)

/-- prove_m31_poseidon2 from examples/src/proofs.rs: Mersenne31 with the Circle PCS
and Poseidon2 MMCS. -/
def prove_m31_poseidon2 (goal : ProofObjective) (num_hashes : ℕ) :
    Except SpecError Unit :=
  proveThenVerify (hashTraceSatisfiesAir goal num_hashes)

/-- NUM_COLS from fib2/src/lib.rs: the increment trace has 73 columns. -/
def NUM_COLS : ℕ := 73

/-- The Goldilocks field as used by fib2. -/
abbrev G : Type := ZMod goldilocksP

/-- Conversion of one parsed u64 row to Goldilocks field elements
(Goldilocks::from_canonical_unchecked on each entry, modelled as reduction mod p). -/
def castRow (r : List ℕ) : List G := r.map (fun x => (x : G))

/-- The rows that parse_trace keeps from the source data: each successfully parsed
line whose column count is exactly NUM_COLS (other lines only produce a warning),
converted to field elements in order. -/
def keptRows (rows : List (List ℕ)) : List (List G) :=
  (rows.filter (fun r => r.length == NUM_COLS)).map castRow

/-- Row i of a trace matrix, defaulting to the empty row out of range. -/
def row_at (m : List (List G)) (i : ℕ) : List G := (m[i]?).getD []

/-- Column 0 of row i, the only entry IncrementAir::eval reads from a row. -/
def col0 (m : List (List G)) (i : ℕ) : G := (row_at m i).getD 0 0

/-- The transition constraint imposed by IncrementAir::eval (fib2/src/lib.rs) on the
row pair (i, i+1): next_row[0] - current_row[0] = 1. -/
def incrementTransitionHolds (m : List (List G)) (i : ℕ) : Bool :=
  col0 m (i + 1) - col0 m i == 1

/-- The preprocessing performed by parse_trace (fib2/src/lib.rs) after reading the
source rows: when more than one row was kept, the final row is removed, and the
remainder is padded up to the next power of two with rows whose column 0 continues
the sequence current_rows, current_rows + 1, ... and whose other columns are copied
from the last kept row. With at most one row the data is returned unchanged. -/
def parse_trace (rows : List (List ℕ)) : List (List G) :=
  let data := keptRows rows
  let num_rows := data.length
  if 1 < num_rows then
    let current_rows := num_rows - 1
    data.take current_rows ++
      (List.range (next_power_of_two current_rows - current_rows)).map
        (fun j => (((current_rows + j : ℕ) : G)) :: (data.getD (current_rows - 1) []).tail)
  else data

/-- Modelled from the spec: the CLI field choices of prove_prime_field_31.rs (the
clap enum FieldOptions lives in examples/src/parsers.rs, which is not under src/;
the spec lists field in BabyBear, KoalaBear, Mersenne31). -/
inductive FieldOptions where
  | BabyBear : FieldOptions
  | KoalaBear : FieldOptions
  | Mersenne31 : FieldOptions
deriving DecidableEq

/-- Modelled from the spec: the CLI DFT choices (enum DftOptions of
examples/src/parsers.rs, not under src/; the spec lists dft in Recursive, Parallel,
None). -/
inductive DftOptions where
  | RecursiveDft : DftOptions
  | Radix2DitParallel : DftOptions
  | None : DftOptions
deriving DecidableEq

/-- Modelled from the spec: the CLI objective choices (enum ProofOptions of
examples/src/parsers.rs, not under src/; the spec lists objective in Blake3,
KeccakF, Poseidon2). -/
inductive ProofOptions where
  | Blake3Permutations : ProofOptions
  | KeccakFPermutations : ProofOptions
  | Poseidon2Permutations : ProofOptions
deriving DecidableEq

/-- The DftChoice wrapper from examples/src/dfts.rs: either the recursive DFT
pre-sized to the given domain or the parallel radix-2 DIT kernel. -/
inductive DftChoice where
  | Recursive : ℕ → DftChoice
  | Parallel : DftChoice
deriving DecidableEq

/-- The PCS the CLI proceeds with after the field/DFT gate: a FRI PCS built from
the selected DFT for the two-adic fields, or the Circle PCS for Mersenne31. -/
inductive PcsSelection where
  | Fri : DftChoice → PcsSelection
  | Circle : PcsSelection
deriving DecidableEq

/-- The field/DFT gating performed by main in
examples/examples/prove_prime_field_31.rs: for BabyBear and KoalaBear the dft
argument selects RecursiveDft::new(trace_height << 1) or Radix2DitParallel, and
DftOptions::None panics; for Mersenne31 only DftOptions::None is accepted (the
Circle PCS needs no DFT) and any other choice panics. Panics are modelled as
ConfigurationError. -/
def dft_gate (field : FieldOptions) (dft : DftOptions) (trace_height : ℕ) :
    Except SpecError PcsSelection :=
  match field with
  | FieldOptions.BabyBear | FieldOptions.KoalaBear =>
      match dft with
      | DftOptions.RecursiveDft =>
          Except.ok (PcsSelection.Fri (DftChoice.Recursive (trace_height <<< 1)))
      | DftOptions.Radix2DitParallel => Except.ok (PcsSelection.Fri DftChoice.Parallel)
      | DftOptions.None => Except.error SpecError.ConfigurationError
  | FieldOptions.Mersenne31 =>
      match dft with
      | DftOptions.None => Except.ok PcsSelection.Circle
      | _ => Except.error SpecError.ConfigurationError

/-- P2_LOG_VECTOR_LEN from prove_prime_field_31.rs: log2 of the Poseidon2
vectorisation factor. -/
def P2_LOG_VECTOR_LEN : ℕ := 3

/-- The num_hashes computation of main in prove_prime_field_31.rs: with
trace_height = 1 << log_trace_length, Blake3 proves trace_height permutations,
Poseidon2 proves trace_height << P2_LOG_VECTOR_LEN, and Keccak-f proves
trace_height / 24 (integer division). -/
def compute_num_hashes (objective : ProofOptions) (log_trace_length : ℕ) : ℕ :=
  let trace_height := 1 <<< log_trace_length
  match objective with
  | ProofOptions.Blake3Permutations => trace_height
  | ProofOptions.Poseidon2Permutations => trace_height <<< P2_LOG_VECTOR_LEN
  | ProofOptions.KeccakFPermutations => trace_height / 24

/-- A 73-column increment row with the given column 0 value and zeros elsewhere,
used as concrete test data. -/
def irow (c : ℕ) : List ℕ := c :: List.replicate 72 0

/-- A 73-column increment row with the given column 0 value and the value x in the
remaining 72 columns, used as concrete test data. -/
def irowWith (c x : ℕ) : List ℕ := c :: List.replicate 72 x

theorem fibRowsFrom_length {p : ℕ} (r : ZMod p × ZMod p) (n : ℕ) :
    (fibRowsFrom r n).length = n := by
  induction n generalizing r with
  | zero => rfl
  | succ n ih => simp [fibRowsFrom, ih]

theorem fibRowsFrom_getElem? {p : ℕ} (r : ZMod p × ZMod p) (n i : ℕ) (h : i < n) :
    (fibRowsFrom r n)[i]? = some (fibNextRow^[i] r) := by
  induction n generalizing r i with
  | zero => exact absurd h (Nat.not_lt_zero i)
  | succ n ih =>
    have hshape : fibRowsFrom r (n + 1) = r :: fibRowsFrom (fibNextRow r) n := rfl
    cases i with
    | zero => rw [hshape, List.getElem?_cons_zero]; rfl
    | succ i =>
      rw [hshape, List.getElem?_cons_succ, ih (fibNextRow r) i (Nat.lt_of_succ_lt_succ h),
        ← Function.iterate_succ_apply]

theorem fibRowsFrom_getLast? {p : ℕ} (r : ZMod p × ZMod p) (n : ℕ) :
    (fibRowsFrom r (n + 1)).getLast? = some (fibNextRow^[n] r) := by
  induction n generalizing r with
  | zero => rfl
  | succ n ih =>
    have hshape : fibRowsFrom r (n + 2)
        = r :: fibNextRow r :: fibRowsFrom (fibNextRow (fibNextRow r)) n := rfl
    rw [hshape, List.getLast?_cons_cons]
    have hfold : (fibNextRow r :: fibRowsFrom (fibNextRow (fibNextRow r)) n)
        = fibRowsFrom (fibNextRow r) (n + 1) := rfl
    rw [hfold, ih (fibNextRow r), ← Function.iterate_succ_apply]

theorem fibTransitionsOk_fibRowsFrom {p : ℕ} (r : ZMod p × ZMod p) (n : ℕ) :
    fibTransitionsOk (fibRowsFrom r n) = true := by
  induction n generalizing r with
  | zero => rfl
  | succ n ih =>
    cases n with
    | zero => rfl
    | succ m =>
      have h2 := ih (fibNextRow r)
      have hshape : fibRowsFrom r (m + 2)
          = r :: fibNextRow r :: fibRowsFrom (fibNextRow (fibNextRow r)) m := rfl
      have hshape2 : fibRowsFrom (fibNextRow r) (m + 1)
          = fibNextRow r :: fibRowsFrom (fibNextRow (fibNextRow r)) m := rfl
      rw [hshape2] at h2
      rw [hshape, fibTransitionsOk, h2]
      simp [fibNextRow]

theorem fib_generated_trace_satisfied {p : ℕ} (r : ZMod p × ZMod p) (n : ℕ)
    (hn : 0 < n) :
    fibAirSatisfied (fibRowsFrom r n) (r.1, r.2, (fibNextRow^[n - 1] r).2) = true := by
  obtain ⟨m, rfl⟩ : ∃ m, n = m + 1 := ⟨n - 1, (Nat.succ_pred_eq_of_pos hn).symm⟩
  rw [fibAirSatisfied, Bool.and_eq_true, Bool.and_eq_true]
  refine ⟨⟨?_, ?_⟩, fibTransitionsOk_fibRowsFrom r (m + 1)⟩
  · have hhead : (fibRowsFrom r (m + 1)).head? = some r := rfl
    simp [fibFirstRowOk, hhead]
  · rw [fibLastRowOk, fibRowsFrom_getLast?]
    simp

theorem next_power_of_two_go_isPowerOfTwo (n fuel power : ℕ)
    (h : power.isPowerOfTwo) : (next_power_of_two_go n fuel power).isPowerOfTwo := by
  induction fuel generalizing power with
  | zero => exact h
  | succ fuel ih =>
    rw [next_power_of_two_go]
    split
    · exact h
    · obtain ⟨k, hk⟩ := h
      exact ih (power * 2) ⟨k + 1, by rw [hk, pow_succ]⟩

theorem next_power_of_two_go_le (n fuel power : ℕ) (h : n ≤ power * 2 ^ fuel) :
    n ≤ next_power_of_two_go n fuel power := by
  induction fuel generalizing power with
  | zero => simpa using h
  | succ fuel ih =>
    rw [next_power_of_two_go]
    split
    · assumption
    · refine ih (power * 2) ?_
      calc n ≤ power * 2 ^ (fuel + 1) := h
        _ = power * 2 * 2 ^ fuel := by ring

theorem le_next_power_of_two (n : ℕ) : n ≤ next_power_of_two n :=
  next_power_of_two_go_le n n 1 (by simpa using (Nat.lt_two_pow n).le)

theorem next_power_of_two_isPowerOfTwo (n : ℕ) :
    (next_power_of_two n).isPowerOfTwo :=
  next_power_of_two_go_isPowerOfTwo n n 1 ⟨0, rfl⟩

theorem isPowerOfTwoRust_two_pow (k : ℕ) : isPowerOfTwoRust (2 ^ k) = true := by
  have h1 : 2 ^ k ≠ 0 := (Nat.pos_pow_of_pos k (by norm_num)).ne'
  have h2 : 2 ^ k &&& (2 ^ k - 1) = 0 := by
    rw [Nat.and_pow_two_sub_one_eq_mod]
    exact Nat.mod_self _
  simp [isPowerOfTwoRust, h1, h2]

theorem parse_trace_shape (rows : List (List ℕ)) (h2 : 2 ≤ (keptRows rows).length) :
    parse_trace rows
      = (keptRows rows).take ((keptRows rows).length - 1) ++
          (List.range
              (next_power_of_two ((keptRows rows).length - 1) -
                ((keptRows rows).length - 1))).map
            (fun j => ((((keptRows rows).length - 1) + j : ℕ) : G) ::
              ((keptRows rows).getD ((keptRows rows).length - 1 - 1) []).tail) := by
  have h1 : 1 < (keptRows rows).length := h2
  simp only [parse_trace]
  rw [if_pos h1]

theorem parse_trace_length (rows : List (List ℕ)) (h2 : 2 ≤ (keptRows rows).length) :
    (parse_trace rows).length = next_power_of_two ((keptRows rows).length - 1) := by
  rw [parse_trace_shape rows h2, List.length_append, List.length_take, List.length_map,
    List.length_range]
  have := le_next_power_of_two ((keptRows rows).length - 1)
  omega

theorem parse_trace_row_source (rows : List (List ℕ)) (h2 : 2 ≤ (keptRows rows).length)
    (i : ℕ) (hi : i < (keptRows rows).length - 1) :
    row_at (parse_trace rows) i = row_at (keptRows rows) i := by
  rw [row_at, parse_trace_shape rows h2, List.getElem?_append]
  have hlt : i < ((keptRows rows).take ((keptRows rows).length - 1)).length := by
    rw [List.length_take]; omega
  rw [if_pos hlt, List.getElem?_take]
  simp [hi, row_at]

theorem parse_trace_row_pad (rows : List (List ℕ)) (h2 : 2 ≤ (keptRows rows).length)
    (j : ℕ) (hj1 : (keptRows rows).length - 1 ≤ j)
    (hj2 : j < next_power_of_two ((keptRows rows).length - 1)) :
    row_at (parse_trace rows) j
      = ((j : ℕ) : G) :: (row_at (keptRows rows) ((keptRows rows).length - 2)).tail := by
  rw [row_at, parse_trace_shape rows h2, List.getElem?_append]
  have hlen : ((keptRows rows).take ((keptRows rows).length - 1)).length
      = (keptRows rows).length - 1 := by
    rw [List.length_take]; omega
  rw [if_neg (by rw [hlen]; omega), hlen, List.getElem?_map,
    List.getElem?_range (by omega :
      j - ((keptRows rows).length - 1) <
        next_power_of_two ((keptRows rows).length - 1) - ((keptRows rows).length - 1))]
  have harg : (keptRows rows).length - 1 + (j - ((keptRows rows).length - 1)) = j := by
    omega
  have hidx : (keptRows rows).length - 1 - 1 = (keptRows rows).length - 2 := by omega
  simp only [Option.map_some', Option.getD_some, harg, hidx]
  simp [row_at, List.getD_eq_getElem?_getD]

theorem parse_trace_col0 (rows : List (List ℕ)) (h2 : 2 ≤ (keptRows rows).length)
    (hidx : ∀ i < (keptRows rows).length, col0 (keptRows rows) i = (i : G)) (j : ℕ)
    (hj : j < next_power_of_two ((keptRows rows).length - 1)) :
    col0 (parse_trace rows) j = (j : G) := by
  rcases lt_or_le j ((keptRows rows).length - 1) with hlt | hge
  · rw [col0, parse_trace_row_source rows h2 j hlt]
    have := hidx j (by omega)
    rwa [col0] at this
  · rw [col0, parse_trace_row_pad rows h2 j hge hj]
    rfl

/-- C2: for every u64 pair (a, b) and every power-of-two num_steps,
generate_fibonacci_trace returns a num_steps-row matrix of (left, right) pairs whose
row 0 is (a, b) embedded into the field and in which every row after the first
equals (prev.right, prev.left + prev.right) with field addition. -/
theorem c2_generate_fibonacci_trace_correct (p a b num_steps : ℕ)
    (h : isPowerOfTwoRust num_steps = true) :
    ∃ rows : List (ZMod p × ZMod p),
      generate_fibonacci_trace p a b num_steps = some rows ∧
      rows.length = num_steps ∧
      rows[0]? = some ((a : ZMod p), (b : ZMod p)) ∧
      ∀ i cur next, rows[i]? = some cur → rows[i + 1]? = some next →
        next = (cur.2, cur.1 + cur.2) := by
  have hpos : 0 < num_steps := by
    by_contra hn
    have h0 : num_steps = 0 := by omega
    rw [h0] at h
    exact absurd h (by decide)
  refine ⟨fibRowsFrom ((a : ZMod p), (b : ZMod p)) num_steps, ?_,
    fibRowsFrom_length _ _, ?_, ?_⟩
  · rw [generate_fibonacci_trace, if_pos ⟨h, hpos⟩]
  · rw [fibRowsFrom_getElem? _ _ 0 hpos]; rfl
  · intro i cur next hc hnx
    have hi1 : i + 1 < num_steps := by
      by_contra hh
      rw [List.getElem?_eq_none (by rw [fibRowsFrom_length]; omega)] at hnx
      exact Option.noConfusion hnx
    rw [fibRowsFrom_getElem? _ _ i (by omega)] at hc
    rw [fibRowsFrom_getElem? _ _ (i + 1) hi1] at hnx
    obtain rfl : cur = fibNextRow^[i] ((a : ZMod p), (b : ZMod p)) :=
      (Option.some.inj hc).symm
    have hne := Option.some.inj hnx
    rw [Function.iterate_succ_apply'] at hne
    exact hne.symm

/-- C2 witness: the theorem instantiated at BabyBear with (a, b) = (2, 3) and four
steps, matching the test test_different_starting_values. -/
theorem c2_generate_fibonacci_trace_correct_witness :
    isPowerOfTwoRust 4 = true ∧
    (∃ rows : List (ZMod babyBearP × ZMod babyBearP),
      generate_fibonacci_trace babyBearP 2 3 4 = some rows ∧
      rows.length = 4 ∧
      rows[0]? = some (((2 : ℕ) : ZMod babyBearP), ((3 : ℕ) : ZMod babyBearP)) ∧
      ∀ i cur next, rows[i]? = some cur → rows[i + 1]? = some next →
        next = (cur.2, cur.1 + cur.2)) :=
  ⟨by decide, c2_generate_fibonacci_trace_correct babyBearP 2 3 4 (by decide)⟩

/-- C5: the CLI field/DFT gate fails for a two-adic field with no DFT selected and
for Mersenne31 with any DFT selected, while Mersenne31 without a DFT proceeds with
the Circle PCS and the two-adic fields proceed with the selected FRI DFT. -/
theorem c5_field_dft_gating (trace_height : ℕ) :
    dft_gate FieldOptions.BabyBear DftOptions.None trace_height
        = Except.error SpecError.ConfigurationError ∧
    dft_gate FieldOptions.KoalaBear DftOptions.None trace_height
        = Except.error SpecError.ConfigurationError ∧
    dft_gate FieldOptions.Mersenne31 DftOptions.RecursiveDft trace_height
        = Except.error SpecError.ConfigurationError ∧
    dft_gate FieldOptions.Mersenne31 DftOptions.Radix2DitParallel trace_height
        = Except.error SpecError.ConfigurationError ∧
    dft_gate FieldOptions.Mersenne31 DftOptions.None trace_height
        = Except.ok PcsSelection.Circle ∧
    dft_gate FieldOptions.BabyBear DftOptions.RecursiveDft trace_height
        = Except.ok (PcsSelection.Fri (DftChoice.Recursive (trace_height <<< 1))) ∧
    dft_gate FieldOptions.BabyBear DftOptions.Radix2DitParallel trace_height
        = Except.ok (PcsSelection.Fri DftChoice.Parallel) ∧
    dft_gate FieldOptions.KoalaBear DftOptions.RecursiveDft trace_height
        = Except.ok (PcsSelection.Fri (DftChoice.Recursive (trace_height <<< 1))) ∧
    dft_gate FieldOptions.KoalaBear DftOptions.Radix2DitParallel trace_height
        = Except.ok (PcsSelection.Fri DftChoice.Parallel) :=
  ⟨rfl, rfl, rfl, rfl, rfl, rfl, rfl, rfl, rfl⟩

/-- C8 counterexample: at log_trace_length = 4 the CLI computes 2^4 * 8 = 128
Poseidon2 evaluations, not 1024 as the claim asserts for that scenario. -/
theorem c8_counterexample :
    compute_num_hashes ProofOptions.Poseidon2Permutations 4 = 128 ∧ (128 : ℕ) ≠ 1024 :=
  ⟨rfl, by decide⟩

/-- C8 (amended): the CLI computes trace_height hashes for Blake3, trace_height * 8
for vectorised Poseidon2 (so log_trace_length = 4 yields 16 * 8 = 128), and
trace_height / 24 rounded down for Keccak-f (so log_trace_length = 7 yields 5). -/
theorem c8_num_hashes (log_trace_length : ℕ) :
    compute_num_hashes ProofOptions.Blake3Permutations log_trace_length
        = 2 ^ log_trace_length ∧
    compute_num_hashes ProofOptions.Poseidon2Permutations log_trace_length
        = 2 ^ log_trace_length * 8 ∧
    compute_num_hashes ProofOptions.KeccakFPermutations log_trace_length
        = 2 ^ log_trace_length / 24 ∧
    compute_num_hashes ProofOptions.KeccakFPermutations 7 = 5 ∧
    compute_num_hashes ProofOptions.Poseidon2Permutations 4 = 128 := by
  refine ⟨?_, ?_, ?_, rfl, rfl⟩
  · simp [compute_num_hashes, Nat.one_shiftLeft]
  · simp [compute_num_hashes, Nat.shiftLeft_eq, P2_LOG_VECTOR_LEN]
  · simp [compute_num_hashes, Nat.one_shiftLeft]

/-- C9: IncrementAir::eval reads only column 0 of the current and next rows, so two
equal-height 73-column traces agreeing on column 0 at every row satisfy or violate
exactly the same transition constraints. -/
theorem c9_increment_eval_depends_only_on_col0 (m1 m2 : List (List G))
    (hw1 : ∀ r ∈ m1, r.length = NUM_COLS) (hw2 : ∀ r ∈ m2, r.length = NUM_COLS)
    (hlen : m1.length = m2.length)
    (hcol : ∀ i < m1.length, col0 m1 i = col0 m2 i) :
    ∀ i, incrementTransitionHolds m1 i = incrementTransitionHolds m2 i := by
  have key : ∀ j, col0 m1 j = col0 m2 j := by
    intro j
    rcases lt_or_le j m1.length with hj | hj
    · exact hcol j hj
    · rw [col0, col0, row_at, row_at, List.getElem?_eq_none hj,
        List.getElem?_eq_none (by omega)]
  intro i
  rw [incrementTransitionHolds, incrementTransitionHolds, key i, key (i + 1)]

/-- C9 witness: two concrete two-row 73-column traces agreeing on column 0 but
differing in every other column, compared on the first transition. -/
theorem c9_increment_eval_depends_only_on_col0_witness :
    (∀ r ∈ [castRow (irow 0), castRow (irow 1)], r.length = NUM_COLS) ∧
    (∀ r ∈ [castRow (irowWith 0 7), castRow (irowWith 1 9)], r.length = NUM_COLS) ∧
    [castRow (irow 0), castRow (irow 1)].length
        = [castRow (irowWith 0 7), castRow (irowWith 1 9)].length ∧
    (∀ i < [castRow (irow 0), castRow (irow 1)].length,
      col0 [castRow (irow 0), castRow (irow 1)] i
        = col0 [castRow (irowWith 0 7), castRow (irowWith 1 9)] i) ∧
    incrementTransitionHolds [castRow (irow 0), castRow (irow 1)] 0
      = incrementTransitionHolds [castRow (irowWith 0 7), castRow (irowWith 1 9)] 0 :=
  ⟨by decide, by decide, by decide, by decide,
    c9_increment_eval_depends_only_on_col0
      [castRow (irow 0), castRow (irow 1)]
      [castRow (irowWith 0 7), castRow (irowWith 1 9)]
      (by decide) (by decide) (by decide) (by decide) 0⟩

/-- C3 counterexample: parse_trace performs no increment check on the kept source
rows, so a source whose column 0 goes 5, 7, 9 yields a returned matrix with
consecutive rows 5 and 7, violating the claimed invariant m[1][0] = m[0][0] + 1
even though at least two source rows were parsed. -/
theorem c3_counterexample :
    2 ≤ (keptRows [irow 5, irow 7, irow 9]).length ∧
    1 + 1 ≤ (parse_trace [irow 5, irow 7, irow 9]).length ∧
    col0 (parse_trace [irow 5, irow 7, irow 9]) 1
      ≠ col0 (parse_trace [irow 5, irow 7, irow 9]) 0 + 1 :=
  ⟨by decide, by decide, by decide⟩

/-- C3 (amended): when at least two source rows are kept and the kept rows satisfy
column 0 equal to the row index (as the shipped trace.txt does, starting at 0), the
returned matrix has power-of-two height, every consecutive row pair satisfies the
increment on column 0 (padding rows continue it, their column 0 being the row
index), and every padding row copies columns 1..72 from the last kept row. -/
theorem c3_parse_trace_invariants (rows : List (List ℕ))
    (h2 : 2 ≤ (keptRows rows).length)
    (hidx : ∀ i < (keptRows rows).length, col0 (keptRows rows) i = (i : G)) :
    (parse_trace rows).length.isPowerOfTwo ∧
    (∀ i, i + 1 < (parse_trace rows).length →
      col0 (parse_trace rows) (i + 1) = col0 (parse_trace rows) i + 1) ∧
    (∀ j, (keptRows rows).length - 1 ≤ j → j < (parse_trace rows).length →
      row_at (parse_trace rows) j
        = ((j : ℕ) : G) :: (row_at (keptRows rows) ((keptRows rows).length - 2)).tail) := by
  have hlen := parse_trace_length rows h2
  refine ⟨?_, ?_, ?_⟩
  · rw [hlen]; exact next_power_of_two_isPowerOfTwo _
  · intro i hi
    rw [hlen] at hi
    rw [parse_trace_col0 rows h2 hidx (i + 1) hi,
      parse_trace_col0 rows h2 hidx i (by omega)]
    push_cast
    ring
  · intro j hj1 hj2
    rw [hlen] at hj2
    exact parse_trace_row_pad rows h2 j hj1 hj2

/-- C3 witness: the amended theorem instantiated at a four-row source whose
column 0 is 0, 1, 2, 3; three rows are kept after the drop and one padding row with
column 0 equal to 3 is generated. -/
theorem c3_parse_trace_invariants_witness :
    2 ≤ (keptRows [irow 0, irow 1, irow 2, irow 3]).length ∧
    (∀ i < (keptRows [irow 0, irow 1, irow 2, irow 3]).length,
      col0 (keptRows [irow 0, irow 1, irow 2, irow 3]) i = (i : G)) ∧
    ((parse_trace [irow 0, irow 1, irow 2, irow 3]).length.isPowerOfTwo ∧
      (∀ i, i + 1 < (parse_trace [irow 0, irow 1, irow 2, irow 3]).length →
        col0 (parse_trace [irow 0, irow 1, irow 2, irow 3]) (i + 1)
          = col0 (parse_trace [irow 0, irow 1, irow 2, irow 3]) i + 1) ∧
      (∀ j, (keptRows [irow 0, irow 1, irow 2, irow 3]).length - 1 ≤ j →
        j < (parse_trace [irow 0, irow 1, irow 2, irow 3]).length →
        row_at (parse_trace [irow 0, irow 1, irow 2, irow 3]) j
          = ((j : ℕ) : G) ::
            (row_at (keptRows [irow 0, irow 1, irow 2, irow 3])
              ((keptRows [irow 0, irow 1, irow 2, irow 3]).length - 2)).tail)) :=
  ⟨by decide, by decide,
    c3_parse_trace_invariants [irow 0, irow 1, irow 2, irow 3] (by decide) (by decide)⟩

/-- C4 counterexample: a two-row source whose trailing row satisfies the increment
recurrence (column 0 goes 0 then 1) still loses its trailing row: parse_trace
returns only the first row. -/
theorem c4_counterexample :
    col0 (keptRows [irow 0, irow 1]) 1 = col0 (keptRows [irow 0, irow 1]) 0 + 1 ∧
    parse_trace [irow 0, irow 1] = [castRow (irow 0)] ∧
    castRow (irow 1) ∉ parse_trace [irow 0, irow 1] :=
  ⟨by decide, by decide, by decide⟩

/-- C4 (amended): whenever at least two source rows are kept, parse_trace drops the
final kept row unconditionally, regardless of whether it satisfies the increment
recurrence: the returned matrix is the first n - 1 kept rows followed by generated
padding rows up to the next power of two. -/
theorem c4_last_row_always_dropped (rows : List (List ℕ))
    (h2 : 2 ≤ (keptRows rows).length) :
    (parse_trace rows).length = next_power_of_two ((keptRows rows).length - 1) ∧
    (∀ i, i < (keptRows rows).length - 1 →
      row_at (parse_trace rows) i = row_at (keptRows rows) i) ∧
    (∀ j, (keptRows rows).length - 1 ≤ j → j < (parse_trace rows).length →
      (row_at (parse_trace rows) j).headI = (j : G)) := by
  have hlen := parse_trace_length rows h2
  refine ⟨hlen, fun i hi => parse_trace_row_source rows h2 i hi, ?_⟩
  intro j hj1 hj2
  rw [hlen] at hj2
  rw [parse_trace_row_pad rows h2 j hj1 hj2]
  rfl

/-- C4 witness: the amended theorem instantiated at the two-row source of the
counterexample; the single remaining row is the first source row. -/
theorem c4_last_row_always_dropped_witness :
    2 ≤ (keptRows [irow 0, irow 1]).length ∧
    ((parse_trace [irow 0, irow 1]).length
        = next_power_of_two ((keptRows [irow 0, irow 1]).length - 1) ∧
      (∀ i, i < (keptRows [irow 0, irow 1]).length - 1 →
        row_at (parse_trace [irow 0, irow 1]) i = row_at (keptRows [irow 0, irow 1]) i) ∧
      (∀ j, (keptRows [irow 0, irow 1]).length - 1 ≤ j →
        j < (parse_trace [irow 0, irow 1]).length →
        (row_at (parse_trace [irow 0, irow 1]) j).headI = (j : G))) :=
  ⟨by decide, c4_last_row_always_dropped [irow 0, irow 1] (by decide)⟩

theorem prove_and_verify_fibonacci_pow2 (a b e k : ℕ) :
    prove_and_verify_fibonacci a b (2 ^ k) e
      = proveThenVerify (fibAirSatisfied
          (fibRowsFrom ((a : ZMod babyBearP), (b : ZMod babyBearP)) (2 ^ k))
          (((u64_as_u32 a : ℕ) : ZMod babyBearP),
           ((u64_as_u32 b : ℕ) : ZMod babyBearP),
           ((u64_as_u32 e : ℕ) : ZMod babyBearP))) := by
  rw [prove_and_verify_fibonacci, generate_fibonacci_trace,
    if_pos ⟨isPowerOfTwoRust_two_pow k, Nat.pos_pow_of_pos k (by norm_num)⟩]

theorem u64_as_u32_cast_of_lt (x : ℕ) (hx : x < 2 ^ 32) :
    ((u64_as_u32 x : ℕ) : ZMod babyBearP) = (x : ZMod babyBearP) := by
  rw [u64_as_u32, Nat.mod_eq_of_lt hx]

/-- C1: every proving entry point generates a trace, proves it and verifies the
produced proof with the same configuration, AIR and public values, and the verify
call returns Ok: the four hash entry points succeed for any objective and number of
hashes (their generated traces satisfy their AIRs per the spec model), and the
Fibonacci prove-and-verify workflow succeeds at any power-of-two height whenever
the expected result is the final right entry of the generated trace. -/
theorem c1_prove_verify_roundtrip (goal : ProofObjective) (num_hashes a b k e : ℕ)
    (ha : a < 2 ^ 32) (hb : b < 2 ^ 32) (he : e < 2 ^ 32)
    (hres : (e : ZMod babyBearP)
        = (fibNextRow^[2 ^ k - 1] ((a : ZMod babyBearP), (b : ZMod babyBearP))).2) :
    prove_monty31_keccak goal num_hashes = Except.ok () ∧
    prove_monty31_poseidon2 goal num_hashes = Except.ok () ∧
    prove_m31_keccak goal num_hashes = Except.ok () ∧
    prove_m31_poseidon2 goal num_hashes = Except.ok () ∧
    prove_and_verify_fibonacci a b (2 ^ k) e = Except.ok () := by
  refine ⟨rfl, rfl, rfl, rfl, ?_⟩
  rw [prove_and_verify_fibonacci_pow2, u64_as_u32_cast_of_lt a ha,
    u64_as_u32_cast_of_lt b hb, u64_as_u32_cast_of_lt e he, hres]
  have hsat := fib_generated_trace_satisfied
    ((a : ZMod babyBearP), (b : ZMod babyBearP)) (2 ^ k)
    (Nat.pos_pow_of_pos k (by norm_num))
  simp [proveThenVerify, hsat]

/-- C1 witness: the roundtrip at the Keccak objective with five hashes and the
Fibonacci workflow at (1, 1), height 8, expected result 34. -/
theorem c1_prove_verify_roundtrip_witness :
    (1 < 2 ^ 32) ∧ (34 < 2 ^ 32) ∧
    ((34 : ℕ) : ZMod babyBearP)
        = (fibNextRow^[2 ^ 3 - 1] (((1 : ℕ) : ZMod babyBearP),
            ((1 : ℕ) : ZMod babyBearP))).2 ∧
    (prove_monty31_keccak ProofObjective.Keccak 5 = Except.ok () ∧
      prove_monty31_poseidon2 ProofObjective.Keccak 5 = Except.ok () ∧
      prove_m31_keccak ProofObjective.Keccak 5 = Except.ok () ∧
      prove_m31_poseidon2 ProofObjective.Keccak 5 = Except.ok () ∧
      prove_and_verify_fibonacci 1 1 (2 ^ 3) 34 = Except.ok ()) :=
  ⟨by decide, by decide, by decide,
    c1_prove_verify_roundtrip ProofObjective.Keccak 5 1 1 3 34
      (by decide) (by decide) (by decide) (by decide)⟩

/-- C6: with public values (1, 1, 99) the height-8 BabyBear Fibonacci trace has
final right entry 34, which differs from 99, so the last-row boundary constraint
fails and the prove-then-verify pipeline rejects with a VerificationError. -/
theorem c6_wrong_result_rejected :
    prove_and_verify_fibonacci 1 1 8 99 = Except.error SpecError.VerificationError ∧
    (fibNextRow^[7] (((1 : ℕ) : ZMod babyBearP), ((1 : ℕ) : ZMod babyBearP))).2
      = ((34 : ℕ) : ZMod babyBearP) ∧
    ((34 : ℕ) : ZMod babyBearP) ≠ ((99 : ℕ) : ZMod babyBearP) :=
  ⟨rfl, by decide, by decide⟩

/-- C7 counterexample: the height-2 trace generated from (1, 1) has rows (1, 1) and
(1, 2), so its last right entry is 2, the last-row constraint fails against the
public result 1 and the workflow rejects instead of succeeding. -/
theorem c7_counterexample :
    prove_and_verify_fibonacci 1 1 2 1 = Except.error SpecError.VerificationError ∧
    fibAirSatisfied
        (fibRowsFrom (((1 : ℕ) : ZMod babyBearP), ((1 : ℕ) : ZMod babyBearP)) 2)
        (((1 : ℕ) : ZMod babyBearP), ((1 : ℕ) : ZMod babyBearP),
          ((1 : ℕ) : ZMod babyBearP))
      = false :=
  ⟨rfl, by decide⟩

/-- C7 (amended): the height-2 trace generated from (1, 1) satisfies all boundary
and transition constraints of the Fibonacci AIR when the third public value is 2,
and the prove-and-verify workflow then succeeds. -/
theorem c7_minimum_trace_proves :
    prove_and_verify_fibonacci 1 1 2 2 = Except.ok () ∧
    fibAirSatisfied
        (fibRowsFrom (((1 : ℕ) : ZMod babyBearP), ((1 : ℕ) : ZMod babyBearP)) 2)
        (((1 : ℕ) : ZMod babyBearP), ((1 : ℕ) : ZMod babyBearP),
          ((2 : ℕ) : ZMod babyBearP))
      = true :=
  ⟨rfl, by decide⟩

/-- C10 counterexample: with start value a = 2^32 the height-1 trace is generated
without panicking, but the workflow fails because the public value is built from
a truncated as u32 (giving 0) while the trace holds 2^32 reduced mod p. -/
theorem c10_counterexample :
    generate_fibonacci_trace babyBearP (2 ^ 32) 1 1
      = some [(((2 ^ 32 : ℕ) : ZMod babyBearP), ((1 : ℕ) : ZMod babyBearP))] ∧
    prove_and_verify_fibonacci (2 ^ 32) 1 1 1
      = Except.error SpecError.VerificationError :=
  ⟨by decide, rfl⟩

/-- C10 (amended): for start values below 2^32 (unaffected by the u32 truncation in
prover.rs), a height-1 trace is accepted: the generator returns the single row
(a, b) since 1 is a power of two, and the workflow with expected result b succeeds
because the single row satisfies all constraints, the transition ones vacuously. -/
theorem c10_single_step (p a b : ℕ) (ha : a < 2 ^ 32) (hb : b < 2 ^ 32) :
    generate_fibonacci_trace p a b 1 = some [((a : ZMod p), (b : ZMod p))] ∧
    prove_and_verify_fibonacci a b 1 b = Except.ok () := by
  constructor
  · rw [generate_fibonacci_trace, if_pos ⟨by decide, by decide⟩]
    rfl
  · rw [prove_and_verify_fibonacci, generate_fibonacci_trace,
      if_pos ⟨by decide, by decide⟩]
    have hsat : fibAirSatisfied
        (fibRowsFrom ((a : ZMod babyBearP), (b : ZMod babyBearP)) 1)
        (((u64_as_u32 a : ℕ) : ZMod babyBearP),
         ((u64_as_u32 b : ℕ) : ZMod babyBearP),
         ((u64_as_u32 b : ℕ) : ZMod babyBearP)) = true := by
      rw [u64_as_u32_cast_of_lt a ha, u64_as_u32_cast_of_lt b hb]
      simp [fibRowsFrom, fibAirSatisfied, fibFirstRowOk, fibLastRowOk, fibTransitionsOk]
    simp [proveThenVerify, hsat]

/-- C10 witness: the amended theorem at (a, b) = (5, 8), matching test_single_step. -/
theorem c10_single_step_witness :
    (5 < 2 ^ 32) ∧ (8 < 2 ^ 32) ∧
    (generate_fibonacci_trace babyBearP 5 8 1
        = some [(((5 : ℕ) : ZMod babyBearP), ((8 : ℕ) : ZMod babyBearP))] ∧
      prove_and_verify_fibonacci 5 8 1 8 = Except.ok ()) :=
  ⟨by decide, by decide, c10_single_step babyBearP 5 8 (by decide) (by decide)⟩
